import Mathlib

/-!
Verification of the session-orchestration core of the Agentic HoneyPot
scam-detection service, shallowly embedded from the Python sources
(`src/core/state.py`, `src/agent/controller.py`, `src/agent/probing_agent.py`,
`src/detection/intent.py`, `src/app/detection/intent.py`).

Python dictionaries are modelled as insertion-ordered association lists,
Python sets as `Finset String`, and Python floats as exact rationals (`ℚ`).
External collaborators that are not part of the orchestration logic (the
spaCy-based extractor, the sklearn classifier probability and the OpenAI
reply generator) enter the model as explicit inputs of each processing step,
so every theorem quantifies over all of their possible outputs.
-/

namespace HoneyPot

/-- Generic lookup in an insertion-ordered association list; this models
Python `dict.get` (returning `none` when the key is absent). -/
def lookupS {α : Type} : List (String × α) → String → Option α
  | [], _ => none
  | (k, v) :: rest, key => if k = key then some v else lookupS rest key

/-- Generic key assignment in an insertion-ordered association list; this
models Python `dict[key] = value` (update in place if the key exists,
otherwise append at the end, preserving insertion order). -/
def setS {α : Type} : List (String × α) → String → α → List (String × α)
  | [], key, v => [(key, v)]
  | (k, w) :: rest, key, v =>
      if k = key then (k, v) :: rest else (k, w) :: setS rest key v

/-- One entry of the append-only conversation log
(`{"from": ..., "text": ..., "timestamp": ...}` in the Python sources). -/
structure Message where
  origin : String
  text : String
  timestamp : String
deriving DecidableEq

/-- A cumulative-intelligence mapping: category name → set of distinct
string values (Python `dict` of `set`s). -/
abbrev IntelMap := List (String × Finset String)

/-- One value of the extracted-intelligence mapping handed to
`merge_intelligence`.  The Python code distinguishes list values
(`set.update`) from scalar values (`set.add`), so the model does too. -/
inductive ExtVal where
  | strs : List String → ExtVal
  | str : String → ExtVal
deriving DecidableEq

/-- Python truthiness of an extracted value: an empty list and an empty
string are falsy. -/
def extFalsy : ExtVal → Bool
  | .strs l => l.isEmpty
  | .str s => s = ""

/-- The extracted mapping passed to `merge_intelligence`. -/
abbrev Extracted := List (String × ExtVal)

/-- Per-session state as created by `init_session` in `src/core/state.py`. -/
structure Session where
  messages : List Message
  intels : IntelMap
  currentGoal : Option String
  goalsCompleted : Finset String
  totalMessages : Nat
  callbackSent : Bool
  createdAt : String
deriving DecidableEq

/-- The process-wide `_sessions` dictionary: session id → session state. -/
abbrev Store := List (String × Session)

/-- The five intelligence categories created by `init_session`. -/
def initIntels : IntelMap :=
  [("bankAccounts", ∅), ("upiIds", ∅), ("phishingLinks", ∅),
   ("phoneNumbers", ∅), ("suspiciousKeywords", ∅)]

/-- The key list of `initIntels`, for stating the category invariant. -/
def fiveKeys : List String :=
  ["bankAccounts", "upiIds", "phishingLinks", "phoneNumbers", "suspiciousKeywords"]

/-- The fresh session dictionary built by `init_session`
(`created_at` comes from `datetime.utcnow`, passed in as an input). -/
def newSession (createdAt : String) : Session where
  messages := []
  intels := initIntels
  currentGoal := none
  goalsCompleted := ∅
  totalMessages := 0
  callbackSent := false
  createdAt := createdAt

/-- `init_session`: create the session lazily; re-creating an existing
session is a no-op. -/
def initSession (st : Store) (sid : String) (nowIso : String) : Store :=
  match lookupS st sid with
  | some _ => st
  | none => setS st sid (newSession nowIso)

/-- `increment_message_count`: bump the counter if the session exists,
silently do nothing otherwise (`if session:` guard in the source). -/
def incrementMessageCount (st : Store) (sid : String) : Store :=
  match lookupS st sid with
  | none => st
  | some s => setS st sid { s with totalMessages := s.totalMessages + 1 }

/-- The per-category update in `merge_intelligence`: `set.update(values)`
for a list value, `set.add(values)` for a scalar value. -/
def addVals (s : Finset String) : ExtVal → Finset String
  | .strs l => s ∪ l.toFinset
  | .str v => insert v s

/-- One iteration of the `merge_intelligence` loop for the entry `p` of
`session["intels"]`: skip an absent or falsy extracted value, union the
rest into the category's set. -/
def mergeOne (ext : Extracted) (p : String × Finset String) : String × Finset String :=
  match lookupS ext p.1 with
  | none => p
  | some v => if extFalsy v then p else (p.1, addVals p.2 v)

/-- The loop of `merge_intelligence`: iterate over the keys already in
`session["intels"]`. -/
def mergeIntels (intels : IntelMap) (ext : Extracted) : IntelMap :=
  intels.map (mergeOne ext)

/-- `merge_intelligence`: no-op when the session is unknown or the extracted
mapping is empty (`if not session or not extracted: return`). -/
def mergeIntelligence (st : Store) (sid : String) (ext : Extracted) : Store :=
  match lookupS st sid with
  | none => st
  | some s =>
      if ext.isEmpty then st
      else setS st sid { s with intels := mergeIntels s.intels ext }

/-- `mark_callback_sent`: set the guard flag if the session exists,
silently do nothing otherwise. -/
def markCallbackSent (st : Store) (sid : String) : Store :=
  match lookupS st sid with
  | none => st
  | some s => setS st sid { s with callbackSent := true }

/-- `is_callback_sent`: `bool(session and session.get("callback_sent"))`. -/
def isCallbackSent (st : Store) (sid : String) : Bool :=
  match lookupS st sid with
  | none => false
  | some s => s.callbackSent

/-- `get_serializable_intelligence`: JSON-safe getter turning each category
set into a list ( `{}` for an unknown session). -/
def serializeIntel (st : Store) (sid : String) : List (String × List String) :=
  match lookupS st sid with
  | none => []
  | some s => s.intels.map fun p => (p.1, p.2.sort (· ≤ ·))

/-- The controller's inline `session["messages"].append(...)`. -/
def appendMsg (st : Store) (sid : String) (m : Message) : Store :=
  match lookupS st sid with
  | none => st
  | some s => setS st sid { s with messages := s.messages ++ [m] }

/-- Messages of a session (empty for an unknown id), for stating invariants. -/
def sessionMessages (st : Store) (sid : String) : List Message :=
  match lookupS st sid with
  | none => []
  | some s => s.messages

/-- Message counter of a session (zero for an unknown id). -/
def sessionTotal (st : Store) (sid : String) : Nat :=
  match lookupS st sid with
  | none => 0
  | some s => s.totalMessages

/-- Intelligence mapping of a session (empty for an unknown id). -/
def sessionIntels (st : Store) (sid : String) : IntelMap :=
  match lookupS st sid with
  | none => []
  | some s => s.intels

/-- Python truthiness of `intels.get(key)`: `None` (absent key) and the
empty set are falsy, a non-empty set is truthy. -/
def truthyF (o : Option (Finset String)) : Bool :=
  match o with
  | none => false
  | some s => !(decide (s = ∅))

/-- The category value with absent keys read as the empty set, used on the
specification side of the theorems (`None` and `∅` are both falsy). -/
def getF (intels : IntelMap) (k : String) : Finset String :=
  (lookupS intels k).getD ∅

/-- `should_stop_extraction` from `src/agent/controller.py`: stop when a
payment artifact (UPI id, bank account or phishing link) and a contact
artifact (phone number) have both been collected, or the conversation has
reached 14 messages. -/
def shouldStopExtraction (intels : IntelMap) (totalMsgs : Nat) : Bool :=
  let paymentFound := truthyF (lookupS intels "upiIds")
    || truthyF (lookupS intels "bankAccounts")
    || truthyF (lookupS intels "phishingLinks")
  let contactFound := truthyF (lookupS intels "phoneNumbers")
  if paymentFound && contactFound then true
  else if 14 ≤ totalMsgs then true
  else false

/-- `select_next_goal` from `src/agent/probing_agent.py`: the four-rule
priority cascade (first match wins). -/
def selectNextGoal (intels : IntelMap) (paymentRequested : Bool) : String :=
  if paymentRequested && !truthyF (lookupS intels "upiIds")
      && !truthyF (lookupS intels "bankAccounts") then "ask_for_payment"
  else if truthyF (lookupS intels "upiIds")
      && !truthyF (lookupS intels "phoneNumbers") then "ask_for_phone"
  else if truthyF (lookupS intels "upiIds") then "confirm_details"
  else "keep_engaged"

/-- The intelligence mapping after `merge_intelligence`, accounting for the
early return on an empty extracted mapping. -/
def mergedIntels (intels : IntelMap) (ext : Extracted) : IntelMap :=
  if ext.isEmpty then intels else mergeIntels intels ext

/-- Which of the three reply-producing paths of `handle_agent` was taken:
the stop-rule early return, the goal-directed generation branch, or the
neutral soft-probing fallback branch. -/
inductive ReplyPath where
  | stopped
  | goal
  | fallback
deriving DecidableEq

/-- The observable outcome of one `handle_agent` call: the reply returned to
the caller, the branch that produced it, and whether `send_final_callback`
was invoked during the call. -/
structure HandleResult where
  reply : String
  path : ReplyPath
  dispatched : Bool
deriving DecidableEq

/-- The fixed closing message of the stop-rule branch. -/
def closingReply : String := "Okay, I will check and get back later."

/-- A store whose single session already has `callback_sent = true`,
used to exercise the guard. -/
def sentStore : Store := [("s", { newSession "t0" with callbackSent := true })]

/-- A store whose single session has seven messages counted, so the count at
decision time of the next call is exactly 8. -/
def storeAtSeven : Store := [("s", { newSession "t0" with totalMessages := 7 })]

/-- A session that has already collected a payment identifier and a phone
number, so the stop rule fires on the next message. -/
def storeReadyToStop : Store :=
  [("s", { newSession "t0" with
            intels := [("bankAccounts", ∅), ("upiIds", {"x@paytm"}),
                       ("phishingLinks", ∅), ("phoneNumbers", {"9876543210"}),
                       ("suspiciousKeywords", ∅)] })]

/-- Intelligence with a UPI id and a bank account but no phone number, to
exercise the second priority rule. -/
def phoneMissingIntels : IntelMap :=
  [("upiIds", {"a@paytm"}), ("bankAccounts", {"1234-5678-9012"}),
   ("phoneNumbers", ∅)]

/-- The extracted mapping of the specification's idempotence example. -/
def upiOnce : Extracted := [("upiIds", ExtVal.strs ["a@hdfc"])]

/-- The session-store operations that the orchestrator performs on the
store (`init_session`, the inline `messages.append`,
`increment_message_count`, `merge_intelligence`, `mark_callback_sent`);
`update_session` exists in `src/core/state.py` but is never invoked by the
`src/agent` controller and is not part of a session's lifetime there. -/
inductive SessionOp where
  | init (sid nowIso : String)
  | append (sid : String) (m : Message)
  | incr (sid : String)
  | merge (sid : String) (ext : Extracted)
  | mark (sid : String)

/-- Interpret one session-store operation. -/
def applyOp (st : Store) : SessionOp → Store
  | .init sid nowIso => initSession st sid nowIso
  | .append sid m => appendMsg st sid m
  | .incr sid => incrementMessageCount st sid
  | .merge sid ext => mergeIntelligence st sid ext
  | .mark sid => markCallbackSent st sid

/-- Run a sequence of session-store operations from the empty store. -/
def runOps (ops : List SessionOp) : Store := ops.foldl applyOp []

/-- Invariant: every existing session's intelligence mapping has exactly
the five keys created by `init_session`, in creation order. -/
def intelKeysInv (st : Store) : Prop :=
  ∀ sid s, lookupS st sid = some s → s.intels.map Prod.fst = fiveKeys

/-- The extraction/enrichment output keys of `extract_and_enrich` that are
not among the five categories created by `init_session`. -/
def extraKeys : List String :=
  ["amounts", "threatTypes", "impersonatedEntities", "domains",
   "domainImpersonation", "upiProviders", "upiImpersonation"]

/-- Python `str.lower()` (ASCII model): lower-case every character. -/
def lowerStr (s : String) : String := String.mk (s.toList.map Char.toLower)

/-- Python `needle in hay` substring containment. -/
def strContains (hay needle : String) : Bool :=
  hay.toList.tails.any fun t => needle.toList.isPrefixOf t

/-- `any(word in text for word in keywords)`. -/
def kwHit (ks : List String) (t : String) : Bool :=
  ks.any fun k => strContains t k

/-- Python `str.isupper()` (ASCII model): at least one letter and no
lowercase letter. -/
def pyIsUpper (s : String) : Bool :=
  (s.toList.any fun c => c.isAlpha) && (s.toList.all fun c => !c.isLower)

/-- `len(text.split())`: the number of maximal whitespace-free runs. -/
def wordCount (s : String) : Nat :=
  (s.toList.foldl
    (fun (acc : Nat × Bool) c =>
      if c.isWhitespace then (acc.1, false)
      else (if acc.2 then acc.1 else acc.1 + 1, true))
    (0, false)).1

/-- Keyword lexicons shared verbatim by `src/detection/intent.py` and
`src/app/detection/intent.py`. -/
def URGENCY_KEYWORDS : List String :=
  ["immediately", "urgent", "today", "now", "within", "24 hours", "limited time"]

/-- Threat/fear wording lexicon. -/
def THREAT_KEYWORDS : List String :=
  ["blocked", "suspended", "terminated", "legal action", "penalty", "frozen"]

/-- Action-demand wording lexicon. -/
def ACTION_KEYWORDS : List String :=
  ["verify", "click", "login", "pay", "transfer", "update", "confirm"]

/-- Authority-impersonation wording lexicon. -/
def AUTHORITY_KEYWORDS : List String :=
  ["bank", "government", "support", "customer care", "admin", "official"]

/-- Sensitive-information request lexicon. -/
def SENSITIVE_INFO_KEYWORDS : List String :=
  ["otp", "pin", "password", "cvv", "account number", "upi"]

/-- Known-risky top-level domains. -/
def SUSPICIOUS_TLDS : List String := [".xyz", ".top", ".info", ".click", ".link"]

/-- Link-shortening services. -/
def URL_SHORTENERS : List String := ["bit.ly", "tinyurl", "goo.gl", "t.co"]

/-- Fuel-indexed scanner for the regex `https?://[^\s]+` used by
`extract_urls`: at each position try to match a scheme followed by a
non-empty maximal run of non-whitespace; matches are non-overlapping and
scanning resumes after each match.  Every step consumes at least one
character, so fuel equal to the input length is enough. -/
def extractUrlsAux : Nat → List Char → List (List Char)
  | 0, _ => []
  | _ + 1, [] => []
  | fuel + 1, c :: rest =>
      let cs := c :: rest
      let hs := "https://".toList
      let ht := "http://".toList
      if hs.isPrefixOf cs then
        let afterScheme := cs.drop 8
        let run := afterScheme.takeWhile fun d => !d.isWhitespace
        if run.isEmpty then extractUrlsAux fuel rest
        else (hs ++ run) :: extractUrlsAux fuel (afterScheme.drop run.length)
      else if ht.isPrefixOf cs then
        let afterScheme := cs.drop 7
        let run := afterScheme.takeWhile fun d => !d.isWhitespace
        if run.isEmpty then extractUrlsAux fuel rest
        else (ht ++ run) :: extractUrlsAux fuel (afterScheme.drop run.length)
      else extractUrlsAux fuel rest

/-- `extract_urls`: `re.findall(r'(https?://[^\s]+)', text.lower())`. -/
def extractUrls (text : String) : List String :=
  (extractUrlsAux (lowerStr text).toList.length (lowerStr text).toList).map
    fun l => String.mk l

/-- The suspicious-URL signal: some extracted URL contains a risky TLD or a
shortener (the source loop breaks after the first hit, so the weight is
added at most once). -/
def hasSuspiciousUrl (text : String) : Bool :=
  (extractUrls text).any fun url =>
    (SUSPICIOUS_TLDS.any fun t => strContains url t)
      || (URL_SHORTENERS.any fun sh => strContains url sh)

/-- `has_grammar_anomaly`: all-caps text, `!!!`/`???`, or fewer than five
words combined with urgency wording. -/
def hasGrammarAnomaly (text : String) : Bool :=
  pyIsUpper text || strContains text "!!!" || strContains text "???"
    || (decide (wordCount text < 5) && kwHit URGENCY_KEYWORDS (lowerStr text))

/-- The additive signal sum of `detect_intent` as a function of the seven
signal booleans, in source order: urgency (+0.15), threat (+0.15), action
(+0.15), authority (+0.10), sensitive info (+0.15), suspicious URL (+0.15),
grammar anomaly (+0.10). -/
def appConf (b1 b2 b3 b4 b5 b6 b7 : Bool) : ℚ :=
  (if b1 then 3/20 else 0) + (if b2 then 3/20 else 0) + (if b3 then 3/20 else 0)
    + (if b4 then 1/10 else 0) + (if b5 then 3/20 else 0)
    + (if b6 then 3/20 else 0) + (if b7 then 1/10 else 0)

/-- The lexical confidence accumulated by `detect_intent` before capping. -/
def heuristicConfidence (text : String) : ℚ :=
  appConf (kwHit URGENCY_KEYWORDS (lowerStr text))
    (kwHit THREAT_KEYWORDS (lowerStr text))
    (kwHit ACTION_KEYWORDS (lowerStr text))
    (kwHit AUTHORITY_KEYWORDS (lowerStr text))
    (kwHit SENSITIVE_INFO_KEYWORDS (lowerStr text))
    (hasSuspiciousUrl text)
    (hasGrammarAnomaly text)

/-- The fired-signal list of `detect_intent`, in firing order. -/
def heuristicSignals (text : String) : List String :=
  (if kwHit URGENCY_KEYWORDS (lowerStr text) then ["urgency"] else [])
    ++ (if kwHit THREAT_KEYWORDS (lowerStr text) then ["threat"] else [])
    ++ (if kwHit ACTION_KEYWORDS (lowerStr text) then ["action_request"] else [])
    ++ (if kwHit AUTHORITY_KEYWORDS (lowerStr text) then
          ["authority_impersonation"] else [])
    ++ (if kwHit SENSITIVE_INFO_KEYWORDS (lowerStr text) then
          ["sensitive_info_request"] else [])
    ++ (if hasSuspiciousUrl text then ["suspicious_url"] else [])
    ++ (if hasGrammarAnomaly text then ["grammar_anomaly"] else [])

/-- Python `min(a, b)` on exact rationals. -/
def ratMin (a b : ℚ) : ℚ := if a ≤ b then a else b

/-- Round-half-to-even on rationals, the rounding mode of Python's built-in
`round`. -/
def roundHalfEven (q : ℚ) : ℤ :=
  let f := ⌊q⌋
  let r := q - f
  if r < 1/2 then f
  else if 1/2 < r then f + 1
  else if f % 2 = 0 then f else f + 1

/-- Python `round(q, 2)`. -/
def pyRound2 (q : ℚ) : ℚ := (roundHalfEven (q * 100) : ℚ) / 100

/-- The dictionary returned by `detect_intent`. -/
structure IntentResult where
  decision : String
  confidence : ℚ
  signals : List String
deriving DecidableEq

/-- `detect_intent` from `src/app/detection/intent.py`: additive lexical
signals, capped at 1, three decision buckets, confidence rounded to two
decimals. -/
def detectIntentApp (text : String) : IntentResult :=
  let conf := ratMin (heuristicConfidence text) 1
  { decision :=
      if 7/10 ≤ conf then "scam" else if 2/5 ≤ conf then "uncertain" else "safe"
    confidence := pyRound2 conf
    signals := heuristicSignals text }

/-- Regex `\w`: whether a character is a word character. -/
def isWordChar (c : Char) : Bool := c.isAlphanum || c = '_'

/-- Try to match `\b(urgent|immediately|now|today)\b` at the current
position (`prevW`: whether the previous character was a word character);
alternatives are tried in source order and a failed trailing boundary
backtracks to the next alternative. -/
def urgencyMatchAt (prevW : Bool) (cs : List Char) : Option (List Char) :=
  if prevW then none
  else
    ["urgent", "immediately", "now", "today"].findSome? fun w =>
      let wl := w.toList
      if wl.isPrefixOf cs then
        match cs.drop wl.length with
        | [] => some []
        | d :: ds => if isWordChar d then none else some (d :: ds)
      else none

/-- Fuel-indexed non-overlapping count of
`re.findall(r'\b(urgent|immediately|now|today)\b', text)` matches. -/
def urgencyCountAux : Nat → Bool → List Char → Nat
  | 0, _, _ => 0
  | _ + 1, _, [] => 0
  | fuel + 1, prevW, c :: rest =>
      match urgencyMatchAt prevW (c :: rest) with
      | some rest' => 1 + urgencyCountAux fuel true rest'
      | none => urgencyCountAux fuel (isWordChar c) rest

/-- The `urgency_patterns` count of the ensemble scorer. -/
def urgencyCount (text : String) : Nat :=
  urgencyCountAux (lowerStr text).toList.length false (lowerStr text).toList

/-- `detect_intent` from `src/detection/intent.py`: same lexical signals,
then a weighted ensemble `0.4 * heuristic + 0.4 * ml + 0.1 * urgency_count
+ 0.1 * length_score` returned (rounded) as the confidence, while the
decision compares only the pre-ensemble heuristic against 0.7 with no
`uncertain` bucket.  `mlScore` stands for
`clf.predict_proba(vec)[0][1]`, the sklearn class-1 probability. -/
def detectIntentEnsemble (text : String) (mlScore : ℚ) : IntentResult :=
  let conf := ratMin (heuristicConfidence text) 1
  let finalScore := conf * (2/5) + mlScore * (2/5)
      + (urgencyCount text : ℚ) * (1/10)
      + (if 20 < text.length ∧ text.length < 200 then (1 : ℚ) else 0) * (1/10)
  { decision := if 7/10 ≤ conf then "scam" else "safe"
    confidence := pyRound2 finalScore
    signals := heuristicSignals text }

/-- The decision bucket demanded by the specification, as a function of the
returned confidence. -/
def bucketOfConfidence (c : ℚ) : String :=
  if 7/10 ≤ c then "scam" else if 2/5 ≤ c then "uncertain" else "safe"

/-- The property claimed for a risk-scorer result: confidence in `[0,1]`
and decision determined by the returned confidence via the thresholds. -/
def resultMatchesC4 (r : IntentResult) : Prop :=
  (0 ≤ r.confidence ∧ r.confidence ≤ 1)
    ∧ r.decision = bucketOfConfidence r.confidence

/-- The claimed property instantiated at the ensemble scorer, for every
possible classifier probability (`predict_proba` values lie in `[0,1]`). -/
def ensembleSatisfiesThresholds (text : String) : Prop :=
  ∀ mlScore : ℚ, 0 ≤ mlScore → mlScore ≤ 1 →
    resultMatchesC4 (detectIntentEnsemble text mlScore)

/-- A message whose nine urgency-pattern matches push the ensemble score
above 1 for every classifier probability. -/
def urgentSpam : String :=
  "urgent urgent urgent urgent urgent urgent urgent urgent urgent"

/-- Inputs of one `handle_agent` call.  `decision` stands for
`detect_intent(message.text)["decision"]` (its sklearn ensemble score is not
reproducible in a pure model), `extracted` for
`extract_and_enrich(message.text)` (spaCy-based), `paymentRequested` for the
controller's inline regex check on the message text, and `genReply` for the
string returned by `generate_reply` (OpenAI round-trip with its internal
content filter).  Every statement quantifying over this structure therefore
holds for every possible output of those collaborators. -/
structure StepInput where
  sender : String
  text : String
  timestamp : String
  nowIso : String
  decision : String
  extracted : Extracted
  paymentRequested : Bool
  genReply : String
  replyTimestamp : String
deriving DecidableEq

/-- Steps 1–5 of `handle_agent`: ensure the session, append the incoming
message, increment the counter, and merge the freshly extracted
intelligence. -/
def prepStore (st : Store) (sid : String) (inp : StepInput) : Store :=
  mergeIntelligence
    (incrementMessageCount
      (appendMsg (initSession st sid inp.nowIso) sid
        ⟨inp.sender, inp.text, inp.timestamp⟩) sid)
    sid inp.extracted

/-- Step 10 of `handle_agent`: append the agent reply and increment the
counter (only reached with a truthy reply). -/
def appendReply (st : Store) (sid : String) (inp : StepInput) : Store :=
  incrementMessageCount
    (appendMsg st sid ⟨"agent", inp.genReply, inp.replyTimestamp⟩) sid

/-- Model of `handle_agent` from `src/agent/controller.py`, with the
external collaborator outputs supplied in `inp`.  The `_nextGoal` binding
mirrors step 6 of the source; its value only influences the prompt handed to
the external generator, whose output is the `genReply` input. -/
def handleAgent (st : Store) (sid : String) (inp : StepInput) : Store × HandleResult :=
  let st1 := prepStore st sid inp
  let intels := sessionIntels st1 sid
  let total := sessionTotal st1 sid
  let _nextGoal := selectNextGoal intels inp.paymentRequested
  let continueHoneypot := (inp.decision == "scam") || decide (total ≤ 8)
  if continueHoneypot && !(isCallbackSent st1 sid) then
    if shouldStopExtraction intels total then
      (markCallbackSent st1 sid,
        ⟨closingReply, .stopped, !(isCallbackSent st1 sid)⟩)
    else if inp.genReply = "" then
      (st1, ⟨inp.genReply, .goal, false⟩)
    else
      (appendReply st1 sid inp, ⟨inp.genReply, .goal, false⟩)
  else if inp.genReply = "" then
    (st1, ⟨inp.genReply, .fallback, false⟩)
  else
    (appendReply st1 sid inp, ⟨inp.genReply, .fallback, false⟩)

/-- Process a sequence of inbound messages for one session, counting how
many of the calls dispatched the final callback. -/
def processTrace (st : Store) (sid : String) : List StepInput → Store × Nat
  | [] => (st, 0)
  | inp :: rest =>
      let out := handleAgent st sid inp
      let next := processTrace out.1 sid rest
      (next.1, (if out.2.dispatched then 1 else 0) + next.2)

/-- A generic inbound step whose collaborator outputs are all benign. -/
def stepHello : StepInput :=
  ⟨"scammer", "hello", "t1", "t0", "safe", [], false, "reply", "t2"⟩

/-- An inbound step judged `scam` by the risk scorer. -/
def stepScam : StepInput :=
  ⟨"scammer", "hello", "t1", "t0", "scam", [], false, "reply", "t2"⟩

/-- The inbound message that triggers the stop rule in the counterexample. -/
def stepPayNow : StepInput :=
  ⟨"scammer", "pay now", "t1", "t0", "scam", [], false, "reply", "t2"⟩

theorem lookupS_setS {α : Type} (l : List (String × α)) (k k' : String) (v : α) :
    lookupS (setS l k v) k' = if k = k' then some v else lookupS l k' := by
  induction l with
  | nil => simp [setS, lookupS]
  | cons p rest ih =>
    obtain ⟨pk, pv⟩ := p
    by_cases h1 : pk = k
    · subst h1
      by_cases h2 : pk = k' <;> simp [setS, lookupS, h2]
    · by_cases h2 : pk = k'
      · have hkk : ¬ k = k' := fun h => h1 (h2.trans h.symm)
        have hk'k : ¬ k' = k := fun h => hkk h.symm
        simp [setS, lookupS, h1, h2, hkk, hk'k]
      · simp [setS, lookupS, h1, h2, ih]

theorem lookupS_setS_self {α : Type} (l : List (String × α)) (k : String) (v : α) :
    lookupS (setS l k v) k = some v := by
  simp [lookupS_setS]

theorem setS_setS {α : Type} (l : List (String × α)) (k : String) (a b : α) :
    setS (setS l k a) k b = setS l k b := by
  induction l with
  | nil => simp [setS]
  | cons p rest ih =>
    obtain ⟨pk, pv⟩ := p
    by_cases h : pk = k <;> simp [setS, h, ih]

theorem setS_lookup_self {α : Type} (l : List (String × α)) (k : String) (v : α)
    (h : lookupS l k = some v) : setS l k v = l := by
  induction l with
  | nil => simp [lookupS] at h
  | cons p rest ih =>
    obtain ⟨pk, pv⟩ := p
    by_cases hk : pk = k
    · simp [lookupS, hk] at h
      simp [setS, hk, h]
    · simp [lookupS, hk] at h
      simp [setS, hk, ih h]

theorem lookupS_mem {α : Type} {l : List (String × α)} {k : String} {v : α}
    (h : lookupS l k = some v) : (k, v) ∈ l := by
  induction l with
  | nil => simp [lookupS] at h
  | cons p rest ih =>
    obtain ⟨pk, pv⟩ := p
    by_cases hk : pk = k
    · simp [lookupS, hk] at h
      simp [hk, h]
    · simp [lookupS, hk] at h
      exact List.mem_cons_of_mem _ (ih h)

theorem lookupS_eq_none_iff {α : Type} (l : List (String × α)) (k : String) :
    lookupS l k = none ↔ k ∉ l.map Prod.fst := by
  induction l with
  | nil => simp [lookupS]
  | cons p rest ih =>
    obtain ⟨pk, pv⟩ := p
    by_cases hk : pk = k
    · subst hk
      simp [lookupS]
    · simp only [lookupS, if_neg hk, ih, List.map_cons, List.mem_cons]
      constructor
      · intro h
        rintro (rfl | hm)
        · exact hk rfl
        · exact h hm
      · intro h hm
        exact h (Or.inr hm)

theorem truthyF_iff (intels : IntelMap) (k : String) :
    truthyF (lookupS intels k) = true ↔ getF intels k ≠ ∅ := by
  unfold getF
  cases h : lookupS intels k <;> simp [truthyF]

theorem lookupS_initSession (st : Store) (sid nowIso : String) :
    lookupS (initSession st sid nowIso) sid =
      some ((lookupS st sid).getD (newSession nowIso)) := by
  unfold initSession
  cases h : lookupS st sid <;> simp [h, lookupS_setS_self]

theorem lookupS_incrementMessageCount (st : Store) (sid : String) :
    lookupS (incrementMessageCount st sid) sid =
      (lookupS st sid).map fun s => { s with totalMessages := s.totalMessages + 1 } := by
  unfold incrementMessageCount
  cases h : lookupS st sid <;> simp [h, lookupS_setS_self]

theorem lookupS_appendMsg (st : Store) (sid : String) (m : Message) :
    lookupS (appendMsg st sid m) sid =
      (lookupS st sid).map fun s => { s with messages := s.messages ++ [m] } := by
  unfold appendMsg
  cases h : lookupS st sid <;> simp [h, lookupS_setS_self]

theorem lookupS_mergeIntelligence (st : Store) (sid : String) (ext : Extracted) :
    lookupS (mergeIntelligence st sid ext) sid =
      (lookupS st sid).map fun s => { s with intels := mergedIntels s.intels ext } := by
  unfold mergeIntelligence mergedIntels
  cases h : lookupS st sid
  · simp [h]
  · by_cases he : ext.isEmpty <;> simp [h, he, lookupS_setS_self]

theorem lookupS_markCallbackSent (st : Store) (sid : String) :
    lookupS (markCallbackSent st sid) sid =
      (lookupS st sid).map fun s => { s with callbackSent := true } := by
  unfold markCallbackSent
  cases h : lookupS st sid <;> simp [h, lookupS_setS_self]

theorem lookupS_prepStore (st : Store) (sid : String) (inp : StepInput) :
    lookupS (prepStore st sid inp) sid =
      some (let s0 := (lookupS st sid).getD (newSession inp.nowIso)
            { s0 with
                messages := s0.messages ++ [⟨inp.sender, inp.text, inp.timestamp⟩],
                totalMessages := s0.totalMessages + 1,
                intels := mergedIntels s0.intels inp.extracted }) := by
  unfold prepStore
  rw [lookupS_mergeIntelligence, lookupS_incrementMessageCount, lookupS_appendMsg,
    lookupS_initSession]
  rfl

theorem sessionTotal_prepStore (st : Store) (sid : String) (inp : StepInput) :
    sessionTotal (prepStore st sid inp) sid = sessionTotal st sid + 1 := by
  unfold sessionTotal
  rw [lookupS_prepStore]
  cases h : lookupS st sid <;> simp [h, newSession]

theorem isCallbackSent_prepStore (st : Store) (sid : String) (inp : StepInput) :
    isCallbackSent (prepStore st sid inp) sid = isCallbackSent st sid := by
  unfold isCallbackSent
  rw [lookupS_prepStore]
  cases h : lookupS st sid <;> simp [h, newSession]

theorem sessionMessages_prepStore (st : Store) (sid : String) (inp : StepInput) :
    sessionMessages (prepStore st sid inp) sid =
      sessionMessages st sid ++ [⟨inp.sender, inp.text, inp.timestamp⟩] := by
  unfold sessionMessages
  rw [lookupS_prepStore]
  cases h : lookupS st sid <;> simp [h, newSession]

theorem isCallbackSent_appendReply (st : Store) (sid : String) (inp : StepInput) :
    isCallbackSent (appendReply st sid inp) sid = isCallbackSent st sid := by
  unfold isCallbackSent appendReply
  rw [lookupS_incrementMessageCount, lookupS_appendMsg]
  cases h : lookupS st sid <;> simp [h]

theorem isCallbackSent_markCallbackSent (st : Store) (sid : String) (s : Session)
    (h : lookupS st sid = some s) :
    isCallbackSent (markCallbackSent st sid) sid = true := by
  unfold isCallbackSent
  rw [lookupS_markCallbackSent, h]
  rfl

theorem sessionTotal_appendReply (st : Store) (sid : String) (inp : StepInput)
    (s : Session) (h : lookupS st sid = some s) :
    sessionTotal (appendReply st sid inp) sid = sessionTotal st sid + 1 := by
  unfold sessionTotal appendReply
  rw [lookupS_incrementMessageCount, lookupS_appendMsg, h]
  simp [h]

theorem sessionMessages_appendReply (st : Store) (sid : String) (inp : StepInput)
    (s : Session) (h : lookupS st sid = some s) :
    sessionMessages (appendReply st sid inp) sid =
      sessionMessages st sid ++ [⟨"agent", inp.genReply, inp.replyTimestamp⟩] := by
  unfold sessionMessages appendReply
  rw [lookupS_incrementMessageCount, lookupS_appendMsg, h]
  simp [h]

theorem sessionTotal_markCallbackSent (st : Store) (sid : String) :
    sessionTotal (markCallbackSent st sid) sid = sessionTotal st sid := by
  unfold sessionTotal
  rw [lookupS_markCallbackSent]
  cases h : lookupS st sid <;> simp [h]

theorem sessionMessages_markCallbackSent (st : Store) (sid : String) :
    sessionMessages (markCallbackSent st sid) sid = sessionMessages st sid := by
  unfold sessionMessages
  rw [lookupS_markCallbackSent]
  cases h : lookupS st sid <;> simp [h]

theorem handleAgent_dispatch_spec (st : Store) (sid : String) (inp : StepInput) :
    ((handleAgent st sid inp).2.dispatched = true →
      isCallbackSent st sid = false
        ∧ isCallbackSent (handleAgent st sid inp).1 sid = true)
    ∧ (isCallbackSent st sid = true →
      isCallbackSent (handleAgent st sid inp).1 sid = true
        ∧ (handleAgent st sid inp).2.dispatched = false) := by
  have hs1 := lookupS_prepStore st sid inp
  have hmark := isCallbackSent_markCallbackSent (prepStore st sid inp) sid _ hs1
  have hprep := isCallbackSent_prepStore st sid inp
  have happ := isCallbackSent_appendReply (prepStore st sid inp) sid inp
  simp only [handleAgent]
  split_ifs with h1 h2 h3 h4 <;>
    simp_all [Bool.and_eq_true, Bool.not_eq_true']

theorem processTrace_sent (sid : String) (msgs : List StepInput) :
    ∀ st : Store, isCallbackSent st sid = true →
      (processTrace st sid msgs).2 = 0
        ∧ isCallbackSent (processTrace st sid msgs).1 sid = true := by
  induction msgs with
  | nil => exact fun st h => ⟨rfl, h⟩
  | cons i rest ih =>
    intro st h
    have hd := (handleAgent_dispatch_spec st sid i).2 h
    have hrest := ih _ hd.1
    simp only [processTrace, hd.2]
    exact ⟨by simp [hrest.1], hrest.2⟩

theorem processTrace_le_one (sid : String) (msgs : List StepInput) :
    ∀ st : Store, (processTrace st sid msgs).2 ≤ 1 := by
  induction msgs with
  | nil => intro st; simp [processTrace]
  | cons i rest ih =>
    intro st
    cases hd : (handleAgent st sid i).2.dispatched
    · simp only [processTrace, hd]
      simpa using ih (handleAgent st sid i).1
    · have hafter := (handleAgent_dispatch_spec st sid i).1 hd
      have hrest := (processTrace_sent sid rest _ hafter.2).1
      simp [processTrace, hd, hrest]

theorem handleAgent_path_iff (st : Store) (sid : String) (inp : StepInput) :
    ((handleAgent st sid inp).2.path ≠ ReplyPath.fallback) ↔
      ((inp.decision = "scam" ∨ sessionTotal st sid + 1 ≤ 8)
        ∧ isCallbackSent st sid = false) := by
  simp only [handleAgent]
  rw [sessionTotal_prepStore, isCallbackSent_prepStore]
  split_ifs with h1 h2 h3 h4 <;>
    simp_all [Bool.and_eq_true, Bool.or_eq_true, Bool.not_eq_true',
      decide_eq_true_eq]

theorem handleAgent_messages_spec (st : Store) (sid : String) (inp : StepInput)
    (h : sessionTotal st sid = (sessionMessages st sid).length) :
    sessionTotal (handleAgent st sid inp).1 sid
        = (sessionMessages (handleAgent st sid inp).1 sid).length
    ∧ ((handleAgent st sid inp).2.path = ReplyPath.stopped →
        (handleAgent st sid inp).2.reply = closingReply
        ∧ sessionMessages (handleAgent st sid inp).1 sid
            = sessionMessages st sid ++ [⟨inp.sender, inp.text, inp.timestamp⟩])
    ∧ ((handleAgent st sid inp).2.path ≠ ReplyPath.stopped → inp.genReply ≠ "" →
        (handleAgent st sid inp).2.reply = inp.genReply
        ∧ sessionMessages (handleAgent st sid inp).1 sid
            = sessionMessages st sid
              ++ [⟨inp.sender, inp.text, inp.timestamp⟩,
                  ⟨"agent", inp.genReply, inp.replyTimestamp⟩]
        ∧ sessionTotal (handleAgent st sid inp).1 sid = sessionTotal st sid + 2) := by
  have hs1 := lookupS_prepStore st sid inp
  have ht1 := sessionTotal_prepStore st sid inp
  have hm1 := sessionMessages_prepStore st sid inp
  have htm := sessionTotal_markCallbackSent (prepStore st sid inp) sid
  have hmm := sessionMessages_markCallbackSent (prepStore st sid inp) sid
  have hta := sessionTotal_appendReply (prepStore st sid inp) sid inp _ hs1
  have hma := sessionMessages_appendReply (prepStore st sid inp) sid inp _ hs1
  simp only [handleAgent]
  split_ifs with h1 h2 h3 h4 <;>
    simp_all [List.append_assoc]

/-- C1: for every session the final-report callback is dispatched at most
once over the session's lifetime: `callback_sent` starts false on the fresh
store, the number of dispatches over any trace of inbound messages is at
most one, and once the flag is true it is never reset and no later message
dispatches again — for every behaviour of the risk scorer, extractor and
reply generator, and regardless of whether the dispatch attempt itself
succeeded (the code marks the flag unconditionally after the attempt). -/
theorem C1_callback_at_most_once (sid : String) (msgs : List StepInput) :
    isCallbackSent ([] : Store) sid = false
    ∧ (processTrace ([] : Store) sid msgs).2 ≤ 1
    ∧ ∀ st : Store, isCallbackSent st sid = true →
        (processTrace st sid msgs).2 = 0
        ∧ isCallbackSent (processTrace st sid msgs).1 sid = true :=
  ⟨rfl, processTrace_le_one sid msgs [],
    fun st h => processTrace_sent sid msgs st h⟩

/-- Witness for C1 at a concrete one-message trace. -/
theorem C1_witness :
    (processTrace ([] : Store) "s" [stepHello]).2 ≤ 1
    ∧ (processTrace sentStore "s" [stepHello]).2 = 0 :=
  ⟨(C1_callback_at_most_once "s" [stepHello]).2.1,
   ((C1_callback_at_most_once "s" [stepHello]).2.2 sentStore (by decide)).1⟩

/-- C7 (amended): the goal-directed reply path (stop branch included) is
taken exactly when the risk decision is `scam` or the post-increment message
count is at most 8 (the source compares with `<= 8`, not `< 8`), and
additionally the callback has not already been sent for the session. -/
theorem C7_continue_condition (st : Store) (sid : String) (inp : StepInput) :
    ((handleAgent st sid inp).2.path ≠ ReplyPath.fallback) ↔
      ((inp.decision = "scam" ∨ sessionTotal st sid + 1 ≤ 8)
        ∧ isCallbackSent st sid = false) :=
  handleAgent_path_iff st sid inp

/-- Counterexample to C7 as stated: with a `safe` decision and a message
count of exactly 8 at decision time, the claim ("strictly below 8") demands
the neutral fallback path, but the code (`total_messages <= 8`) takes the
goal-directed path; and with a `scam` decision but the callback already
sent, the claim demands the goal-directed path, but the code falls back. -/
theorem C7_counterexample :
    ((handleAgent storeAtSeven "s" stepHello).2.path = ReplyPath.goal
      ∧ ¬((stepHello.decision = "scam") ∨ 7 + 1 < 8))
    ∧ ((handleAgent sentStore "s" stepScam).2.path = ReplyPath.fallback
      ∧ ((stepScam.decision = "scam") ∨ 0 + 1 < 8)) := by
  decide

/-- Witness for C7 at a concrete input: a `scam` decision on a fresh store
takes a non-fallback path. -/
theorem C7_witness :
    (handleAgent ([] : Store) "s" stepScam).2.path ≠ ReplyPath.fallback :=
  (C7_continue_condition ([] : Store) "s" stepScam).mpr
    ⟨Or.inl rfl, rfl⟩

/-- C8 (amended): the counter-equals-log-length invariant is preserved by
every `handle_agent` call, and a non-empty generator reply is appended as an
agent-origin message with exactly one paired increment; but when the stop
rule fires, the fixed closing message is returned to the caller without
being appended to the message log and without an increment (the source
returns early, before step 10). -/
theorem C8_reply_accounting (st : Store) (sid : String) (inp : StepInput)
    (h : sessionTotal st sid = (sessionMessages st sid).length) :
    sessionTotal (handleAgent st sid inp).1 sid
        = (sessionMessages (handleAgent st sid inp).1 sid).length
    ∧ ((handleAgent st sid inp).2.path = ReplyPath.stopped →
        (handleAgent st sid inp).2.reply = closingReply
        ∧ sessionMessages (handleAgent st sid inp).1 sid
            = sessionMessages st sid ++ [⟨inp.sender, inp.text, inp.timestamp⟩])
    ∧ ((handleAgent st sid inp).2.path ≠ ReplyPath.stopped → inp.genReply ≠ "" →
        (handleAgent st sid inp).2.reply = inp.genReply
        ∧ sessionMessages (handleAgent st sid inp).1 sid
            = sessionMessages st sid
              ++ [⟨inp.sender, inp.text, inp.timestamp⟩,
                  ⟨"agent", inp.genReply, inp.replyTimestamp⟩]
        ∧ sessionTotal (handleAgent st sid inp).1 sid = sessionTotal st sid + 2) :=
  handleAgent_messages_spec st sid inp h

/-- Witness for C8 at a concrete input: the invariant holds after one call
on the empty store. -/
theorem C8_witness :
    sessionTotal (handleAgent ([] : Store) "s" stepHello).1 "s"
      = (sessionMessages (handleAgent ([] : Store) "s" stepHello).1 "s").length :=
  (C8_reply_accounting ([] : Store) "s" stepHello rfl).1

/-- Counterexample to C8 as stated: when the stop rule fires, the returned
reply is the fixed closing message, yet the post-call message log contains
only the incoming message — the closing reply was neither appended with
agent origin nor counted, contradicting "whether produced by the external
generator or the fixed closing message ... appends that reply ... and
increments the message counter exactly once for it". -/
theorem C8_counterexample :
    (handleAgent storeReadyToStop "s" stepPayNow).2.path = ReplyPath.stopped
    ∧ (handleAgent storeReadyToStop "s" stepPayNow).2.reply = closingReply
    ∧ sessionMessages (handleAgent storeReadyToStop "s" stepPayNow).1 "s"
        = [⟨"scammer", "pay now", "t1"⟩]
    ∧ sessionTotal (handleAgent storeReadyToStop "s" stepPayNow).1 "s" = 1 := by
  decide

/-- C2: `should_stop_extraction(intels, total_msgs)` is true exactly when a
payment artifact (UPI id, bank account or phishing link) and a phone number
have both been collected, or `total_msgs >= 14`; including the three
reference evaluations from the specification. -/
theorem C2_stop_rule :
    (∀ (intels : IntelMap) (t : Nat),
      shouldStopExtraction intels t = true ↔
        (((getF intels "upiIds" ≠ ∅ ∨ getF intels "bankAccounts" ≠ ∅
            ∨ getF intels "phishingLinks" ≠ ∅)
          ∧ getF intels "phoneNumbers" ≠ ∅) ∨ 14 ≤ t))
    ∧ shouldStopExtraction
        [("upiIds", {"x@paytm"}), ("phoneNumbers", {"9876543210"})] 2 = true
    ∧ shouldStopExtraction [] 13 = false
    ∧ shouldStopExtraction [] 14 = true := by
  refine ⟨fun intels t => ?_, by decide, by decide, by decide⟩
  have hu := truthyF_iff intels "upiIds"
  have hb := truthyF_iff intels "bankAccounts"
  have hp := truthyF_iff intels "phishingLinks"
  have hph := truthyF_iff intels "phoneNumbers"
  unfold shouldStopExtraction
  by_cases h14 : 14 ≤ t <;>
    cases hbu : truthyF (lookupS intels "upiIds") <;>
    cases hbb : truthyF (lookupS intels "bankAccounts") <;>
    cases hbp : truthyF (lookupS intels "phishingLinks") <;>
    cases hbph : truthyF (lookupS intels "phoneNumbers") <;>
    simp_all

/-- Witness for C2: the message ceiling alone forces a stop. -/
theorem C2_witness : shouldStopExtraction [] 20 = true :=
  (C2_stop_rule.1 [] 20).mpr (Or.inr (by norm_num))

/-- C3: `select_next_goal` applies its rules in strict priority order, first
match wins: payment referenced with no UPI id and no bank account collected
gives `ask_for_payment`; else a collected UPI id without a phone number
gives `ask_for_phone` regardless of any other populated categories; else a
collected UPI id gives `confirm_details`; else `keep_engaged`. -/
theorem C3_goal_priority (intels : IntelMap) (pr : Bool) :
    (pr = true → getF intels "upiIds" = ∅ → getF intels "bankAccounts" = ∅ →
      selectNextGoal intels pr = "ask_for_payment")
    ∧ (getF intels "upiIds" ≠ ∅ → getF intels "phoneNumbers" = ∅ →
      selectNextGoal intels pr = "ask_for_phone")
    ∧ (getF intels "upiIds" ≠ ∅ → getF intels "phoneNumbers" ≠ ∅ →
      selectNextGoal intels pr = "confirm_details")
    ∧ (getF intels "upiIds" = ∅ → (pr = false ∨ getF intels "bankAccounts" ≠ ∅) →
      selectNextGoal intels pr = "keep_engaged") := by
  have hu := truthyF_iff intels "upiIds"
  have hb := truthyF_iff intels "bankAccounts"
  have hph := truthyF_iff intels "phoneNumbers"
  unfold selectNextGoal
  split_ifs with h1 h2 h3 <;>
    simp_all [Bool.and_eq_true, Bool.not_eq_true']

/-- Witness for C3: a collected UPI id with no phone number yields
`ask_for_phone` even though the bank-account category is populated and a
payment was referenced. -/
theorem C3_witness : selectNextGoal phoneMissingIntels true = "ask_for_phone" :=
  (C3_goal_priority phoneMissingIntels true).2.1 (by decide) (by decide)

theorem addVals_idem (s : Finset String) (v : ExtVal) :
    addVals (addVals s v) v = addVals s v := by
  cases v with
  | strs l => simp [addVals, Finset.union_assoc]
  | str x => simp [addVals, Finset.insert_idem]

theorem mergeOne_idem (ext : Extracted) (p : String × Finset String) :
    mergeOne ext (mergeOne ext p) = mergeOne ext p := by
  unfold mergeOne
  cases h : lookupS ext p.1 with
  | none => simp [h]
  | some v =>
    by_cases hf : extFalsy v = true
    · simp [h, hf]
    · simp [h, hf, addVals_idem]

/-- Mapping a function that fixes every member of a list is the identity. -/
theorem map_eq_self_of {α : Type} (l : List α) (f : α → α)
    (h : ∀ a ∈ l, f a = a) : l.map f = l := by
  induction l with
  | nil => rfl
  | cons x xs ih =>
    simp only [List.map_cons, h x (List.mem_cons_self x xs)]
    rw [ih fun a ha => h a (List.mem_cons_of_mem x ha)]

/-- Mapping a key-preserving function over an association list preserves the
key list. -/
theorem map_fst_of_preserve {β γ : Type} (l : List (String × β))
    (f : String × β → String × γ) (h : ∀ p ∈ l, (f p).1 = p.1) :
    (l.map f).map Prod.fst = l.map Prod.fst := by
  induction l with
  | nil => rfl
  | cons x xs ih =>
    simp only [List.map_cons, h x (List.mem_cons_self x xs)]
    rw [ih fun p hp => h p (List.mem_cons_of_mem x hp)]

theorem mergeOne_fst (ext : Extracted) (p : String × Finset String) :
    (mergeOne ext p).1 = p.1 := by
  unfold mergeOne
  cases h : lookupS ext p.1 with
  | none => rfl
  | some v =>
    by_cases hf : extFalsy v = true <;> simp [hf]

theorem mergeIntels_idem (i : IntelMap) (ext : Extracted) :
    mergeIntels (mergeIntels i ext) ext = mergeIntels i ext := by
  unfold mergeIntels
  rw [List.map_map]
  exact List.map_congr_left fun p _ => mergeOne_idem ext p

theorem mergeIntels_keys (i : IntelMap) (ext : Extracted) :
    (mergeIntels i ext).map Prod.fst = i.map Prod.fst :=
  map_fst_of_preserve i (mergeOne ext) fun p _ => mergeOne_fst ext p

/-- C5: `merge_intelligence` is idempotent per session — merging the same
extracted mapping twice leaves the cumulative intelligence equal to merging
it once, and in particular merging `{"upiIds": ["a@hdfc"]}` twice into a
fresh session leaves the category with exactly the one value `"a@hdfc"`
(categories are sets, so duplicates never accumulate). -/
theorem C5_merge_idempotent :
    (∀ (st : Store) (sid : String) (ext : Extracted),
      mergeIntelligence (mergeIntelligence st sid ext) sid ext
        = mergeIntelligence st sid ext)
    ∧ getF (sessionIntels
        (mergeIntelligence
          (mergeIntelligence (initSession [] "s" "t0") "s" upiOnce) "s" upiOnce)
        "s") "upiIds" = {"a@hdfc"} := by
  refine ⟨fun st sid ext => ?_, by decide⟩
  cases h : lookupS st sid with
  | none =>
    have h1 : mergeIntelligence st sid ext = st := by
      simp [mergeIntelligence, h]
    rw [h1, h1]
  | some s =>
    by_cases he : ext.isEmpty = true
    · have h1 : mergeIntelligence st sid ext = st := by
        simp [mergeIntelligence, h, he]
      rw [h1, h1]
    · have h1 : mergeIntelligence st sid ext
          = setS st sid { s with intels := mergeIntels s.intels ext } := by
        simp [mergeIntelligence, h, he]
      rw [h1]
      unfold mergeIntelligence
      rw [lookupS_setS_self]
      simp only [he, Bool.false_eq_true, if_false, mergeIntels_idem, setS_setS]

/-- C9 (amended): every session-store mutation on an identifier that was
never initialized — `increment_message_count`, `merge_intelligence` or
`mark_callback_sent` on an unknown session id — is a silently absorbed
no-op: the function returns normally and the store is unchanged (the source
guards each mutation with `if session:` / `if not session: return` and
raises nothing). -/
theorem C9_unknown_id_noop (st : Store) (sid : String) (ext : Extracted)
    (h : lookupS st sid = none) :
    incrementMessageCount st sid = st
    ∧ mergeIntelligence st sid ext = st
    ∧ markCallbackSent st sid = st := by
  refine ⟨?_, ?_, ?_⟩ <;>
    simp [incrementMessageCount, mergeIntelligence, markCallbackSent, h]

/-- Counterexample to C9 as stated: on the empty store (no session was ever
initialized) each of the three mutations returns normally with the store
unchanged, i.e. the "mutate unknown session" condition is silently absorbed
as a no-op instead of signalling a logic error. -/
theorem C9_counterexample :
    incrementMessageCount [] "ghost" = ([] : Store)
    ∧ mergeIntelligence [] "ghost" [("upiIds", ExtVal.strs ["a@hdfc"])]
        = ([] : Store)
    ∧ markCallbackSent [] "ghost" = ([] : Store) := by
  decide

/-- Witness for C9 at a concrete unknown id. -/
theorem C9_witness :
    mergeIntelligence [] "ghost2" [("phoneNumbers", ExtVal.strs ["9876543210"])]
      = ([] : Store) :=
  (C9_unknown_id_noop [] "ghost2" [("phoneNumbers", ExtVal.strs ["9876543210"])]
    rfl).2.1

theorem intelKeysInv_applyOp (st : Store) (op : SessionOp)
    (h : intelKeysInv st) : intelKeysInv (applyOp st op) := by
  have hset : ∀ (sid : String) (v : Session), v.intels.map Prod.fst = fiveKeys →
      intelKeysInv (setS st sid v) := by
    intro sid v hv sid' s' hs'
    rw [lookupS_setS] at hs'
    by_cases he : sid = sid'
    · rw [if_pos he] at hs'
      cases hs'
      exact hv
    · rw [if_neg he] at hs'
      exact h sid' s' hs'
  cases op with
  | init sid nowIso =>
    show intelKeysInv (initSession st sid nowIso)
    unfold initSession
    cases hs : lookupS st sid with
    | some s => exact h
    | none => exact hset sid (newSession nowIso) rfl
  | append sid m =>
    show intelKeysInv (appendMsg st sid m)
    unfold appendMsg
    cases hs : lookupS st sid with
    | none => exact h
    | some s => exact hset sid _ (h sid s hs)
  | incr sid =>
    show intelKeysInv (incrementMessageCount st sid)
    unfold incrementMessageCount
    cases hs : lookupS st sid with
    | none => exact h
    | some s => exact hset sid _ (h sid s hs)
  | merge sid ext =>
    show intelKeysInv (mergeIntelligence st sid ext)
    unfold mergeIntelligence
    cases hs : lookupS st sid with
    | none => exact h
    | some s =>
      by_cases he : ext.isEmpty = true
      · simp only [he, if_true]
        exact h
      · simp only [he, Bool.false_eq_true, if_false]
        have hk : (mergeIntels s.intels ext).map Prod.fst = fiveKeys := by
          rw [mergeIntels_keys]
          exact h sid s hs
        exact hset sid _ hk
  | mark sid =>
    show intelKeysInv (markCallbackSent st sid)
    unfold markCallbackSent
    cases hs : lookupS st sid with
    | none => exact h
    | some s => exact hset sid _ (h sid s hs)

theorem intelKeysInv_runOps (ops : List SessionOp) : intelKeysInv (runOps ops) := by
  have hgen : ∀ st, intelKeysInv st → intelKeysInv (ops.foldl applyOp st) := by
    induction ops with
    | nil => exact fun st h => h
    | cons op rest ih =>
      intro st h
      exact ih (applyOp st op) (intelKeysInv_applyOp st op h)
  exact hgen [] (by intro sid s hs; simp [lookupS] at hs)

/-- C6 (amended): at every point reachable by the orchestrator's
session-store operations, every existing session's intelligence mapping
has exactly the five categories created by `init_session` (`bankAccounts`,
`upiIds`, `phishingLinks`, `phoneNumbers`, `suspiciousKeywords`), present
even when empty; the remaining six categories named by the specification
are never keys of the mapping. -/
theorem C6_five_categories (ops : List SessionOp) (sid : String) (s : Session)
    (h : lookupS (runOps ops) sid = some s) :
    s.intels.map Prod.fst = fiveKeys :=
  intelKeysInv_runOps ops sid s h

/-- Counterexample to C6 as stated: immediately after a session is created,
the monetary-amounts category (`"amounts"`, produced under that key by
`extract_and_enrich`) is not a present key of the session's intelligence
mapping — the mapping holds exactly five keys, not the claimed eleven. -/
theorem C6_counterexample :
    lookupS (sessionIntels (runOps [SessionOp.init "s" "t0"]) "s") "amounts" = none
    ∧ (sessionIntels (runOps [SessionOp.init "s" "t0"]) "s").map Prod.fst
        = fiveKeys := by
  decide

/-- Witness for C6 at a concrete one-operation history. -/
theorem C6_witness : (newSession "t0").intels.map Prod.fst = fiveKeys :=
  C6_five_categories [SessionOp.init "s" "t0"] "s" (newSession "t0") (by decide)

/-- C10: `merge_intelligence` changes at most the five categories created by
`init_session`; the key list of the session's intelligence stays exactly
those five (and so does the key list of the serialized intelligence sent in
the callback), every key of `extract_and_enrich`'s output outside the five
(amounts, threatTypes, impersonatedEntities, domains, domainImpersonation,
upiProviders, upiImpersonation) never appears in either, and an extracted
mapping containing only such foreign keys leaves the store completely
unchanged. -/
theorem C10_merge_frame (st : Store) (sid : String) (s : Session)
    (ext : Extracted) (h : lookupS st sid = some s)
    (hk : s.intels.map Prod.fst = fiveKeys) :
    (sessionIntels (mergeIntelligence st sid ext) sid).map Prod.fst = fiveKeys
    ∧ (serializeIntel (mergeIntelligence st sid ext) sid).map Prod.fst = fiveKeys
    ∧ (∀ k ∈ extraKeys,
        lookupS (sessionIntels (mergeIntelligence st sid ext) sid) k = none
        ∧ lookupS (serializeIntel (mergeIntelligence st sid ext) sid) k = none)
    ∧ ((∀ p ∈ ext, p.1 ∉ fiveKeys) → mergeIntelligence st sid ext = st) := by
  have hA : sessionIntels (mergeIntelligence st sid ext) sid
      = mergedIntels s.intels ext := by
    unfold sessionIntels
    rw [lookupS_mergeIntelligence, h]
    rfl
  have hAkeys : (mergedIntels s.intels ext).map Prod.fst = fiveKeys := by
    unfold mergedIntels
    by_cases he : ext.isEmpty = true <;> simp [he, mergeIntels_keys, hk]
  have hS : serializeIntel (mergeIntelligence st sid ext) sid
      = (mergedIntels s.intels ext).map (fun p => (p.1, p.2.sort (· ≤ ·))) := by
    unfold serializeIntel
    rw [lookupS_mergeIntelligence, h]
    rfl
  have hSkeys : (serializeIntel (mergeIntelligence st sid ext) sid).map Prod.fst
      = fiveKeys := by
    rw [hS, map_fst_of_preserve (mergedIntels s.intels ext)
      (fun p => (p.1, p.2.sort (· ≤ ·))) (fun p _ => rfl), hAkeys]
  have hdisj : ∀ k ∈ extraKeys, k ∉ fiveKeys := by decide
  refine ⟨by rw [hA, hAkeys], hSkeys, fun k hkex => ⟨?_, ?_⟩, fun hext => ?_⟩
  · rw [lookupS_eq_none_iff, hA, hAkeys]
    exact hdisj k hkex
  · rw [lookupS_eq_none_iff, hSkeys]
    exact hdisj k hkex
  · by_cases he : ext.isEmpty = true
    · simp [mergeIntelligence, h, he]
    · have hone : ∀ p ∈ s.intels, mergeOne ext p = p := by
        intro p hp
        unfold mergeOne
        cases hl : lookupS ext p.1 with
        | none => rfl
        | some v =>
          exfalso
          exact hext _ (lookupS_mem hl)
            (by rw [← hk]; exact List.mem_map_of_mem Prod.fst hp)
      have hmi : mergeIntels s.intels ext = s.intels :=
        map_eq_self_of _ _ hone
      have hstep : mergeIntelligence st sid ext
          = setS st sid { s with intels := mergeIntels s.intels ext } := by
        simp [mergeIntelligence, h, he]
      rw [hstep, hmi]
      exact setS_lookup_self st sid s h

/-- Witness for C10: merging an extraction that only carries the foreign
`amounts` key into a fresh session leaves the category list at the five
initial keys. -/
theorem C10_witness :
    (sessionIntels
      (mergeIntelligence (initSession [] "s" "t0") "s"
        [("amounts", ExtVal.strs ["rs 5000"])]) "s").map Prod.fst = fiveKeys :=
  (C10_merge_frame (initSession [] "s" "t0") "s" (newSession "t0")
    [("amounts", ExtVal.strs ["rs 5000"])] (by decide) (by decide)).1

theorem roundHalfEven_intCast (n : ℤ) : roundHalfEven (n : ℚ) = n := by
  unfold roundHalfEven
  rw [Int.floor_intCast]
  norm_num

theorem pyRound2_of_int (q : ℚ) (n : ℤ) (h : q * 100 = (n : ℚ)) :
    pyRound2 q = q := by
  unfold pyRound2
  rw [h, roundHalfEven_intCast]
  rw [← h]
  ring

theorem appConf_mul100 (b1 b2 b3 b4 b5 b6 b7 : Bool) :
    ∃ n : ℤ, appConf b1 b2 b3 b4 b5 b6 b7 * 100 = (n : ℚ)
      ∧ 0 ≤ n ∧ n ≤ 95 := by
  refine ⟨(if b1 then 15 else 0) + (if b2 then 15 else 0)
    + (if b3 then 15 else 0) + (if b4 then 10 else 0) + (if b5 then 15 else 0)
    + (if b6 then 15 else 0) + (if b7 then 10 else 0), ?_, ?_, ?_⟩ <;>
    cases b1 <;> cases b2 <;> cases b3 <;> cases b4 <;> cases b5 <;>
      cases b6 <;> cases b7 <;>
    norm_num [appConf]

theorem detectApp_props (b1 b2 b3 b4 b5 b6 b7 : Bool) :
    (0 ≤ pyRound2 (ratMin (appConf b1 b2 b3 b4 b5 b6 b7) 1)
      ∧ pyRound2 (ratMin (appConf b1 b2 b3 b4 b5 b6 b7) 1) ≤ 1)
    ∧ (if 7/10 ≤ ratMin (appConf b1 b2 b3 b4 b5 b6 b7) 1 then "scam"
        else if 2/5 ≤ ratMin (appConf b1 b2 b3 b4 b5 b6 b7) 1 then "uncertain"
        else "safe")
      = bucketOfConfidence
          (pyRound2 (ratMin (appConf b1 b2 b3 b4 b5 b6 b7) 1)) := by
  obtain ⟨n, hn, hn0, hn95⟩ := appConf_mul100 b1 b2 b3 b4 b5 b6 b7
  have hcast0 : (0 : ℚ) ≤ (n : ℚ) := by exact_mod_cast hn0
  have hcast95 : (n : ℚ) ≤ 95 := by exact_mod_cast hn95
  have hq0 : 0 ≤ appConf b1 b2 b3 b4 b5 b6 b7 := by linarith
  have hq1 : appConf b1 b2 b3 b4 b5 b6 b7 ≤ 1 := by linarith
  have hmin : ratMin (appConf b1 b2 b3 b4 b5 b6 b7) 1
      = appConf b1 b2 b3 b4 b5 b6 b7 := by
    rw [ratMin, if_pos hq1]
  have hround : pyRound2 (appConf b1 b2 b3 b4 b5 b6 b7)
      = appConf b1 b2 b3 b4 b5 b6 b7 :=
    pyRound2_of_int _ n hn
  rw [hmin, hround]
  exact ⟨⟨hq0, hq1⟩, rfl⟩

/-- C4 (amended): for every text input, the app-variant risk scorer
(`src/app/detection/intent.py`) returns a confidence in `[0, 1]` and a
decision that is the stated threshold function of that returned confidence
(`scam` iff ≥ 0.7, `uncertain` iff in `[0.4, 0.7)`, else `safe`). -/
theorem C4_scorer_thresholds (s : String) :
    (0 ≤ (detectIntentApp s).confidence ∧ (detectIntentApp s).confidence ≤ 1)
    ∧ (detectIntentApp s).decision
        = bucketOfConfidence (detectIntentApp s).confidence :=
  detectApp_props (kwHit URGENCY_KEYWORDS (lowerStr s))
    (kwHit THREAT_KEYWORDS (lowerStr s)) (kwHit ACTION_KEYWORDS (lowerStr s))
    (kwHit AUTHORITY_KEYWORDS (lowerStr s))
    (kwHit SENSITIVE_INFO_KEYWORDS (lowerStr s)) (hasSuspiciousUrl s)
    (hasGrammarAnomaly s)

/-- Counterexample to C4 as stated: the ensemble variant
(`src/detection/intent.py`) violates the claim on the concrete message of
nine `urgent` words, for every possible classifier probability in `[0, 1]` —
exhibited here at probability 0, where the returned confidence is
`round(0.15 * 0.4 + 0.0 * 0.4 + 9 * 0.1 + 1 * 0.1, 2) = 1.06 > 1`, outside
the claimed interval `[0, 1]`. -/
theorem C4_counterexample : ¬ ensembleSatisfiesThresholds urgentSpam := by
  intro h
  have hr := (h 0 le_rfl zero_le_one).1.2
  have hb1 : kwHit URGENCY_KEYWORDS (lowerStr urgentSpam) = true := by decide
  have hb2 : kwHit THREAT_KEYWORDS (lowerStr urgentSpam) = false := by decide
  have hb3 : kwHit ACTION_KEYWORDS (lowerStr urgentSpam) = false := by decide
  have hb4 : kwHit AUTHORITY_KEYWORDS (lowerStr urgentSpam) = false := by decide
  have hb5 : kwHit SENSITIVE_INFO_KEYWORDS (lowerStr urgentSpam) = false := by
    decide
  have hb6 : hasSuspiciousUrl urgentSpam = false := by decide
  have hb7 : hasGrammarAnomaly urgentSpam = false := by decide
  have hconf : heuristicConfidence urgentSpam = 3/20 := by
    unfold heuristicConfidence
    rw [hb1, hb2, hb3, hb4, hb5, hb6, hb7]
    norm_num [appConf]
  have h9 : urgencyCount urgentSpam = 9 := by decide
  have hlen : 20 < urgentSpam.length ∧ urgentSpam.length < 200 := by decide
  have hcv : (detectIntentEnsemble urgentSpam 0).confidence
      = pyRound2 (ratMin (heuristicConfidence urgentSpam) 1 * (2/5)
          + 0 * (2/5) + (urgencyCount urgentSpam : ℚ) * (1/10)
          + (if 20 < urgentSpam.length ∧ urgentSpam.length < 200 then (1 : ℚ)
             else 0) * (1/10)) := rfl
  rw [hcv, hconf, h9, if_pos hlen] at hr
  have hmin : ratMin ((3 : ℚ)/20) 1 = 3/20 := by
    rw [ratMin, if_pos]
    norm_num
  rw [hmin] at hr
  rw [show (3 : ℚ)/20 * (2/5) + 0 * (2/5) + ((9 : ℕ) : ℚ) * (1/10)
      + (1 : ℚ) * (1/10) = 53/50 by push_cast; norm_num] at hr
  rw [pyRound2_of_int ((53 : ℚ)/50) 106 (by norm_num)] at hr
  norm_num at hr

end HoneyPot
